import Mathlib

/-!
Shallow embedding of `na_gribtools/icon/db.py` (class `ICONDatabase`) and of
the small helpers it imports, with theorems checking the natural-language
specification against the code.

Conventions of the embedding:
* Python strings are Lean `String`s (`String.data : List Char` mirrors
  Python's sequence of code points).
* Python `datetime.datetime` instants are modelled as `Int` seconds since an
  epoch that falls on a UTC midnight (1970-01-01, as in POSIX time); the
  proleptic Gregorian calendar used by `datetime` is modelled with the
  standard civil-from-days / days-from-civil algorithms.
* Fallible Python code (functions that may raise) returns `Option`/`Except`.
* `datetime.datetime.utcnow()` is modelled by passing the sampled instant as
  an explicit argument; a function that samples the clock twice takes two
  instants `now1 ≤ now2`.
-/

namespace NaGribtools

/-- Python `s.endswith(t)`: `t.data` is a suffix of `s.data`. -/
def strEndsWith (s suf : String) : Bool :=
  List.isSuffixOf suf.data s.data

/-- Python slice `s[-2:]`: the last two characters of `s` (the whole string
when it is shorter than two characters). -/
def lastTwo (s : String) : String :=
  ⟨s.data.drop (s.data.length - 2)⟩

/-- Python `s.lower()` (all our strings are ASCII). -/
def lowerStr (s : String) : String :=
  ⟨s.data.map Char.toLower⟩

/-- Python `s.upper()` (all our strings are ASCII). -/
def upperStr (s : String) : String :=
  ⟨s.data.map Char.toUpper⟩

/-- Zero-pad a natural number to at least `w` digits, as Python `"%0wd"` does
for a non-negative argument. -/
def padNat (w : Nat) (n : Nat) : String :=
  ⟨List.replicate (w - (toString n).data.length) '0' ++ (toString n).data⟩

/-- Python `"%03d" % h` for an arbitrary integer: the zero-padded width 3
includes the sign character when `h` is negative. -/
def int3 (h : Int) : String :=
  if h < 0 then "-" ++ padNat 2 h.natAbs else padNat 3 h.toNat

/-- Python `"%4d" % y`: space padding to width 4. -/
def padSpace4 (y : Int) : String :=
  ⟨List.replicate (4 - (toString y).data.length) ' ' ++ (toString y).data⟩

/-- Python `"%02d" % n` for a non-negative argument. -/
def pad2 (n : Nat) : String := padNat 2 n

/-- Gregorian leap-year test, as in Python's `calendar`/`datetime`. -/
def isLeap (y : Int) : Bool :=
  (y % 4 == 0 && y % 100 != 0) || y % 400 == 0

/-- Number of days in a month of the proleptic Gregorian calendar. -/
def daysInMonth (y m : Int) : Int :=
  if m = 2 then (if isLeap y then 29 else 28)
  else if m = 4 ∨ m = 6 ∨ m = 9 ∨ m = 11 then 30
  else 31

/-- Days since 1970-01-01 of the Gregorian date `y-m-d` (the standard
days-from-civil algorithm, which agrees with Python `datetime.date.toordinal`
up to the fixed epoch offset). -/
def daysFromCivil (y m d : Int) : Int :=
  let yy := if m ≤ 2 then y - 1 else y
  let era := yy / 400
  let yoe := yy - era * 400
  let mp := (m + 9) % 12
  let doy := (153 * mp + 2) / 5 + d - 1
  let doe := yoe * 365 + yoe / 4 - yoe / 100 + doy
  era * 146097 + doe - 719468

/-- Gregorian date `(y, m, d)` of the day `z` days after 1970-01-01 (the
standard civil-from-days algorithm, inverse of `daysFromCivil`). -/
def civilFromDays (z : Int) : Int × Int × Int :=
  let z' := z + 719468
  let era := z' / 146097
  let doe := z' - era * 146097
  let yoe := (doe - doe / 1460 + doe / 36524 - doe / 146096) / 365
  let y := yoe + era * 400
  let doy := doe - (365 * yoe + yoe / 4 - yoe / 100)
  let mp := (5 * doy + 2) / 153
  let d := doy - (153 * mp + 2) / 5 + 1
  let m := mp + (if mp < 10 then 3 else -9)
  (if m ≤ 2 then y + 1 else y, m, d)

/-- Digit characters to the natural number they denote (most significant
first). -/
def digitsToNat (cs : List Char) : Nat :=
  cs.foldl (fun a c => a * 10 + (c.toNat - 48)) 0

/-- Modelled from the spec: `timeIdentifierToDatetime` is imported by
`db.py` from a module that is not under `src/`.  Per the spec, a
RunIdentifier is "a 10-digit string `YYYYMMDDHH`" whose invariant is to be
"always parseable back to a valid UTC datetime truncated to the hour", and
identifiers "whose identifier doesn't parse to a valid datetime" make this
parser fail.  The model parses the four fields and validates them as
Python `datetime` would, returning the instant in seconds. -/
def timeIdentifierToDatetime (s : String) : Option Int :=
  let cs := s.data
  if cs.length = 10 ∧ cs.all Char.isDigit then
    let y : Int := Int.ofNat (digitsToNat (cs.take 4))
    let m : Int := Int.ofNat (digitsToNat ((cs.drop 4).take 2))
    let d : Int := Int.ofNat (digitsToNat ((cs.drop 6).take 2))
    let h : Int := Int.ofNat (digitsToNat ((cs.drop 8).take 2))
    if 1 ≤ y ∧ y ≤ 9999 ∧ 1 ≤ m ∧ m ≤ 12 ∧ 1 ≤ d ∧ d ≤ daysInMonth y m
        ∧ h ≤ 23 then
      some (daysFromCivil y m d * 86400 + h * 3600)
    else none
  else none

/-- Take exactly `n` decimal digits from the front of `cs`, returning them
and the rest; `none` when fewer than `n` digits are available. -/
def digitsTake : Nat → List Char → Option (List Char × List Char)
  | 0, rest => some ([], rest)
  | _ + 1, [] => none
  | n + 1, c :: rest =>
    if c.isDigit then
      (digitsTake n rest).map (fun p => (c :: p.1, p.2))
    else none

/-- Try the regex `([0-9]{10})_[0-9]{3}` anchored at the head of `cs`,
returning the ten captured digits. -/
def tryRunHoriz (cs : List Char) : Option (List Char) :=
  match digitsTake 10 cs with
  | none => none
  | some (ds, rest) =>
    match rest with
    | '_' :: rest2 =>
      match digitsTake 3 rest2 with
      | none => none
      | some _ => some ds
    | _ => none

/-- Try the regex `forecast-([0-9]{10})` anchored at the head of `cs`,
returning the ten captured digits. -/
def tryForecast (cs : List Char) : Option (List Char) :=
  if List.isPrefixOf "forecast-".data cs then
    (digitsTake 10 (cs.drop 9)).map Prod.fst
  else none

/-- Python `re.search`: try the anchored matcher at every position, leftmost
match wins. -/
def searchAux (f : List Char → Option (List Char)) : List Char → Option (List Char)
  | [] => f []
  | c :: rest =>
    match f (c :: rest) with
    | some r => some r
    | none => searchAux f rest

/-- Model of `re.search("([0-9]{10})_[0-9]{3}", name).group(1)`. -/
def searchRunHoriz (name : String) : Option String :=
  (searchAux tryRunHoriz name.data).map (fun cs => ⟨cs⟩)

/-- Model of `re.search("forecast-([0-9]{10})", name).group(1)`. -/
def searchForecastId (name : String) : Option String :=
  (searchAux tryForecast name.data).map (fun cs => ⟨cs⟩)

/-- Modelled from the spec: the variable catalog `ICON_VARIABLES` lives in
`variables.py`, which is not under `src/`.  The spec describes it as "a
static mapping from variable identifier to (name, vertical level, band)"
and its example names the `T_2M` entry; the level string is left abstract
by the spec ("exact level string per catalog entry"), so a placeholder
level is used.  Entries are `(variableID, (name, verticalLevel, band))`. -/
def ICON_VARIABLES : List (String × String × String × Nat) :=
  [("T_2M", "T_2M", "single-level", 1)]

/-- Python `ICON_VARIABLES[variableID]` as a lookup returning
`(name, verticalLevel, band)`. -/
def lookupVar (variableID : String) : Option (String × String × Nat) :=
  (ICON_VARIABLES.find? (fun v => v.1 == variableID)).map (fun v => v.2)

/-- Embedding of `ICONDatabase.__getDatasetFilename`: the catalog lookup can
fail (Python `KeyError`), the formatting itself validates nothing. -/
def getDatasetFilename (variableID timeIdentifier : String) (hours : Int)
    (ending : String) : Option String :=
  (lookupVar variableID).map (fun v =>
    "ICON_iko_" ++ v.2.1 ++ "_elements_world_" ++ upperStr v.1 ++ "_"
      ++ timeIdentifier ++ "_" ++ int3 hours ++ ending)

/-- The horizon checks of `ICONDatabase.__getURL`:
`0 <= hours <= 180`, and `hours % 3 == 0` whenever `hours > 78`. -/
def horizonValid (hours : Int) : Bool :=
  (decide (0 ≤ hours) && decide (hours ≤ 180))
    && (decide (hours ≤ 78) || decide (hours % 3 = 0))

/-- Embedding of `ICONDatabase.__getURL`.  The `assert variableID in
ICON_VARIABLES` failure and the (unreachable) `KeyError` of the inner
filename lookup surface as `AssertionError`/`KeyError`; an invalid horizon
raises `Exception("Invalid forecast hour.")`. -/
def getURL (variableID timeIdentifier : String) (hours : Int) :
    Except String String :=
  match lookupVar variableID with
  | none => .error "AssertionError"
  | some v =>
    if horizonValid hours then
      match getDatasetFilename variableID timeIdentifier hours ".grib2.bz2" with
      | none => .error "KeyError"
      | some fname =>
        .ok ("https://opendata.dwd.de/weather/icon/global/grib/"
          ++ lastTwo timeIdentifier ++ "/" ++ lowerStr v.1 ++ "/" ++ fname)
    else .error "Invalid forecast hour."

/-- The `days` part of `lastTime = utcnow() - DATASET_DELAY` in
`ICONDatabase.__getDownloadTimeInfo` (the day index of the datetime). -/
def runDays (now : Int) : Int :=
  (now - 10800) / 86400

/-- Seconds into the day of `lastTime` (the time-of-day of the datetime). -/
def runRem (now : Int) : Int :=
  now - 10800 - runDays now * 86400

/-- The source's `downloadHour = math.floor(lastTime.hour/6.0) * 6`. -/
def downloadHourOf (now : Int) : Int :=
  runRem now / 3600 / 6 * 6

/-- The instant of the source's
`downloadTime = datetime(lastTime.year, lastTime.month, lastTime.day,
downloadHour)`. -/
def governingRunInstant (now : Int) : Int :=
  runDays now * 86400 + downloadHourOf now * 3600

/-- The source's `"%4d%02d%02d%02d" % (downloadTime.year, downloadTime.month,
downloadTime.day, downloadHour)`: the calendar fields of the day index `z`
followed by the hour `hh`. -/
def formatYMDH (z : Int) (hh : Nat) : String :=
  match civilFromDays z with
  | (y, m, d) => padSpace4 y ++ pad2 m.toNat ++ pad2 d.toNat ++ pad2 hh

/-- Embedding of `ICONDatabase.__getDownloadTimeInfo` (the spec's
`currentPublicationRun`): the governing-run identifier string and the run
instant, derived from the sampled clock value `now`. -/
def getDownloadTimeInfo (now : Int) : String × Int :=
  (formatYMDH (runDays now) (downloadHourOf now).toNat, governingRunInstant now)

/-- The source's
`int((forecastTime - downloadTime).total_seconds() / 3600.0)` in
`downloadForecastFromNow`: `now1` is the clock sample used for the governing
run, `now2` the sample used for `roundedNowTime` (both operands are whole
hours, so exact division models the float arithmetic). -/
def rawForecastDiff (now1 now2 lead : Int) : Int :=
  (now2 - now2 % 3600 + lead * 3600 - governingRunInstant now1) / 3600

/-- The source's `if forecastDiff > 78: forecastDiff =
int(math.floor(forecastDiff / 3.0) * 3.0)`. -/
def quantizeHorizon (d : Int) : Int :=
  if 78 < d then d / 3 * 3 else d

/-- The source's `if forecastDiff > 180: forecastDiff = 180`. -/
def clampHorizon (d : Int) : Int :=
  if 180 < d then 180 else d

/-- The effective horizon computed by `downloadForecastFromNow`. -/
def effectiveHorizon (now1 now2 lead : Int) : Int :=
  clampHorizon (quantizeHorizon (rawForecastDiff now1 now2 lead))

/-- The run-resolution step of `downloadForecastFromNow` (the spec's
`resolveHorizonFromWallClock`): governing-run identifier plus effective
horizon. -/
def resolveHorizonFromWallClock (now1 now2 lead : Int) : String × Int :=
  ((getDownloadTimeInfo now1).1, effectiveHorizon now1 now2 lead)

/-- The URL-building loop of `ICONDatabase.__downloadAndCompile`: one URL per
catalog variable, the first `__getURL` exception propagating. -/
def buildDownloadURLs (timeIdentifier : String) (hours : Int) :
    List (String × String × String × Nat) → Except String (List (String × String))
  | [] => .ok []
  | v :: rest =>
    match getURL v.1 timeIdentifier hours with
    | .error e => .error e
    | .ok u =>
      match buildDownloadURLs timeIdentifier hours rest with
      | .error e => .error e
      | .ok l => .ok ((v.1, u) :: l)

/-- Embedding of `ICONDatabase.__downloadAndCompile` up to the call of the
external `downloadAndCompile` collaborator: the arguments passed to it
(time identifier, hours, per-variable URLs), or the propagated exception. -/
def downloadAndCompileArgs (timeIdentifier : String) (hours : Int) :
    Except String (String × Int × List (String × String)) :=
  (buildDownloadURLs timeIdentifier hours ICON_VARIABLES).map
    (fun urls => (timeIdentifier, hours, urls))

/-- Embedding of `ICONDatabase.downloadForecastFromNow`: `now1` is the
instant sampled by `__getDownloadTimeInfo`, `now2` the instant sampled for
`roundedNowTime`, `lead` the `forecastHoursFromNow` argument. -/
def downloadForecastFromNow (now1 now2 lead : Int) :
    Except String (String × Int × List (String × String)) :=
  downloadAndCompileArgs (resolveHorizonFromWallClock now1 now2 lead).1
    (resolveHorizonFromWallClock now1 now2 lead).2

/-- Model of POSIX `os.path.join` with two components. -/
def pathJoin (d n : String) : String :=
  if List.isPrefixOf "/".data n.data then n
  else if d = "" then n
  else if strEndsWith d "/" then d ++ n
  else d ++ "/" ++ n

/-- Python dict assignment `ret[k] = v` on an insertion-ordered association
list: overwrite in place when the key exists, else append. -/
def dictInsert (ret : List (String × String × Int)) (k : String)
    (v : String × Int) : List (String × String × Int) :=
  if ret.any (fun e => e.1 == k) then
    ret.map (fun e => if e.1 == k then (k, v) else e)
  else ret ++ [(k, v.1, v.2)]

/-- The body of the `for name in os.listdir(...)` loop of
`ICONDatabase.listDatabase`, acting on the accumulated dict. -/
def listStep (tempDir : String) (ret : List (String × String × Int))
    (name : String) : List (String × String × Int) :=
  let fullpath := pathJoin tempDir name
  if strEndsWith fullpath ".icondb" then
    match searchForecastId name with
    | none => ret
    | some tid =>
      match timeIdentifierToDatetime tid with
      | none => ret
      | some t => dictInsert ret tid (fullpath, t)
  else ret

/-- Embedding of `ICONDatabase.listDatabase` (the spec's `listArchives`):
`files` is the list of names of the regular files of the directory, in
iteration order (the `os.path.isfile` check is reflected by taking regular
files as input).  Each entry maps a time identifier to the archive path and
its forecast time. -/
def listDatabase (tempDir : String) (files : List String) :
    List (String × String × Int) :=
  files.foldl (listStep tempDir) []

/-- Raw-artifact suffix list of `ICONDatabase.cleanUp`. -/
def rawSuffixes : List String := [".grb2", ".grib2", ".grib2.bz2"]

/-- Compiled-archive suffix list of `ICONDatabase.cleanUp`. -/
def dbSuffixes : List String := [".icondb", ".icondb.temp", ".icondb.checksum"]

/-- Does `name` end with one of the suffixes? -/
def matchesSuffix (name : String) (sufs : List String) : Bool :=
  sufs.any (fun s => strEndsWith name s)

/-- Modelled from the spec: `filterDirWithSuffix` is imported by `db.py`
from a module that is not under `src/`.  The spec describes the janitor as
"scans a directory ... using distinct filename patterns" keyed on
extensions, so the model keeps the file names whose name ends with one of
the given suffixes. -/
def filterDirWithSuffix (files : List String) (sufs : List String) :
    List String :=
  files.filter (fun n => matchesSuffix n sufs)

/-- One deletion decision of `ICONDatabase.cleanUp`: extract the embedded
identifier with the class regex and parse it; on any failure delete, else
delete exactly when the run time is strictly older than the cutoff
(`isOlderThan a b = (b - a).total_seconds() > 0`, i.e. `a < b`). -/
def deleteDecision (idOf : String → Option String) (cutoff : Int)
    (name : String) : Bool :=
  match idOf name with
  | none => true
  | some tid =>
    match timeIdentifierToDatetime tid with
    | none => true
    | some t => decide (t < cutoff)

/-- Embedding of `ICONDatabase.cleanUp`: `files` are the names in the
work directory, `now` the sampled clock instant, `archiveLife` the
configured raw-artifact retention in hours.  The result is the list of
deleted names (the source's `delList`): first the raw-artifact pass with
cutoff `now - archiveLife` hours, then the compiled-archive pass with the
fixed cutoff `now - 1` hour. -/
def cleanUp (files : List String) (now archiveLife : Int) : List String :=
  (filterDirWithSuffix files rawSuffixes).filter
      (deleteDecision searchRunHoriz (now - archiveLife * 3600))
    ++ (filterDirWithSuffix files dbSuffixes).filter
      (deleteDecision searchForecastId (now - 3600))

/-! ### Helper lemmas -/

theorem data_append (s t : String) : (s ++ t).data = s.data ++ t.data := by
  cases s
  cases t
  rfl

theorem lastTwo_append (s t : String) (ht : t.data.length = 2) :
    lastTwo (s ++ t) = t := by
  cases s with
  | mk sd =>
    cases t with
    | mk td =>
      simp only [lastTwo, data_append] at *
      have h1 : (sd ++ td).length - 2 = sd.length := by
        simp [List.length_append, ht]
      rw [h1, List.drop_left]

theorem horizonValid_iff (h : Int) :
    horizonValid h = true ↔ 0 ≤ h ∧ h ≤ 180 ∧ (78 < h → h % 3 = 0) := by
  simp only [horizonValid, Bool.and_eq_true, Bool.or_eq_true, decide_eq_true_iff]
  omega

theorem int3_nonneg (h : Int) (h0 : 0 ≤ h) : int3 h = padNat 3 h.toNat := by
  rw [int3, if_neg (by omega)]

/-- The claim `C1`: the spec's end-to-end example asserts that
`buildURL("T_2M", "2024010100", 6)` yields a URL whose hour path segment is
`06`.  The code takes the hour segment from the last two characters of the
run identifier, which are `00`; the produced URL does not end with the
spec's claimed `/06/t_2m/...` tail. -/
theorem buildURL_T2M_hour_counterexample :
    getURL "T_2M" "2024010100" 6 =
      .ok "https://opendata.dwd.de/weather/icon/global/grib/00/t_2m/ICON_iko_single-level_elements_world_T_2M_2024010100_006.grib2.bz2"
    ∧ strEndsWith
        "https://opendata.dwd.de/weather/icon/global/grib/00/t_2m/ICON_iko_single-level_elements_world_T_2M_2024010100_006.grib2.bz2"
        "/06/t_2m/ICON_iko_single-level_elements_world_T_2M_2024010100_006.grib2.bz2"
      = false :=
  ⟨rfl, by decide⟩

/-- The claim `C1` as amended: for the catalog variable `T_2M` with run
identifier `2024010100` and horizon 6, `buildURL` returns a URL whose hour
path segment is `00` (the last two characters of the run identifier), i.e. a
URL ending in `.../00/t_2m/ICON_iko_<level>_elements_world_T_2M_2024010100_006.grib2.bz2`
with the exact level string taken from the catalog entry. -/
theorem buildURL_T2M_example :
    ∃ level : String, ∃ band : Nat,
      lookupVar "T_2M" = some ("T_2M", level, band)
      ∧ getURL "T_2M" "2024010100" 6 =
        .ok ("https://opendata.dwd.de/weather/icon/global/grib/00/t_2m/ICON_iko_"
          ++ level ++ "_elements_world_T_2M_2024010100_006.grib2.bz2") :=
  ⟨"single-level", 1, rfl, rfl⟩

/-- The claim `C2`: for every catalog variable, every run identifier and
every valid horizon (an integer in `[0, 180]`, a multiple of 3 when above
78), `buildURL` returns exactly the base string followed by the last two
characters of the run identifier, `/`, the lower-cased variable name, `/`,
and the filename
`ICON_iko_<verticalLevel>_elements_world_<NAME upper-cased>_<run>_<horizon
zero-padded to 3 digits>.grib2.bz2`. -/
theorem buildURL_layout (vid vName vLevel : String) (vBand : Nat)
    (tid : String) (h : Int)
    (hv : lookupVar vid = some (vName, vLevel, vBand))
    (h0 : 0 ≤ h) (h180 : h ≤ 180) (h3 : 78 < h → h % 3 = 0) :
    getURL vid tid h =
      .ok ("https://opendata.dwd.de/weather/icon/global/grib/"
        ++ lastTwo tid ++ "/" ++ lowerStr vName ++ "/"
        ++ "ICON_iko_" ++ vLevel ++ "_elements_world_" ++ upperStr vName
        ++ "_" ++ tid ++ "_" ++ padNat 3 h.toNat ++ ".grib2.bz2") := by
  have hval : horizonValid h = true := (horizonValid_iff h).mpr ⟨h0, h180, h3⟩
  simp only [getURL, getDatasetFilename, hv, hval, if_true, Option.map_some',
    int3_nonneg h h0]
  simp only [String.append_assoc]

/-- Witness for `buildURL_layout` at the doc comment's own example input
(run `2017120300`, horizon 24). -/
theorem buildURL_layout_witness :
    getURL "T_2M" "2017120300" 24 =
      .ok ("https://opendata.dwd.de/weather/icon/global/grib/"
        ++ lastTwo "2017120300" ++ "/" ++ lowerStr "T_2M" ++ "/"
        ++ "ICON_iko_" ++ "single-level" ++ "_elements_world_"
        ++ upperStr "T_2M" ++ "_" ++ "2017120300" ++ "_"
        ++ padNat 3 (24 : Int).toNat ++ ".grib2.bz2") :=
  buildURL_layout "T_2M" "T_2M" "single-level" 1 "2017120300" 24 rfl
    (by decide) (by decide) (by omega)

/-- The claim `C3`: it asserts that `buildFilename` fails with
`InvalidHorizon` for horizons in `(78, 180]` that are not multiples of 3.
The code's `__getDatasetFilename` performs no horizon validation: at the
catalog variable `T_2M` and horizon 80 it happily returns the formatted
filename. -/
theorem buildFilename_no_validation_counterexample :
    (78 < (80 : Int) ∧ (80 : Int) ≤ 180 ∧ ¬((80 : Int) % 3 = 0))
    ∧ getDatasetFilename "T_2M" "2024010100" 80 ".grib2.bz2"
      = some "ICON_iko_single-level_elements_world_T_2M_2024010100_080.grib2.bz2" :=
  ⟨by decide, rfl⟩

/-- The claim `C3` as amended: for every catalog variable, for every integer
horizon `h` with `0 ≤ h ≤ 78` both `buildURL` and `buildFilename` succeed;
for every `h` in `(78, 180]` with `h mod 3 ≠ 0`, `buildURL` fails with the
invalid-horizon error while `buildFilename` (which performs no validation)
still returns the formatted filename; and for every `h < 0` or `h > 180`,
`buildURL` fails while `buildFilename` still returns the formatted
filename. -/
theorem horizon_validation (vid vName vLevel : String) (vBand : Nat)
    (tid : String) (h : Int)
    (hv : lookupVar vid = some (vName, vLevel, vBand)) :
    (0 ≤ h ∧ h ≤ 78 →
      (∃ u, getURL vid tid h = .ok u)
      ∧ ∃ f, getDatasetFilename vid tid h ".grib2.bz2" = some f)
    ∧ (78 < h ∧ h ≤ 180 ∧ ¬(h % 3 = 0) →
      getURL vid tid h = .error "Invalid forecast hour."
      ∧ ∃ f, getDatasetFilename vid tid h ".grib2.bz2" = some f)
    ∧ (h < 0 ∨ 180 < h →
      getURL vid tid h = .error "Invalid forecast hour."
      ∧ ∃ f, getDatasetFilename vid tid h ".grib2.bz2" = some f) := by
  have hfile : ∃ f, getDatasetFilename vid tid h ".grib2.bz2" = some f := by
    simp [getDatasetFilename, hv]
  refine ⟨fun hr => ?_, fun hr => ?_, fun hr => ?_⟩
  · have hval : horizonValid h = true :=
      (horizonValid_iff h).mpr ⟨hr.1, by omega, by omega⟩
    obtain ⟨f, hf⟩ := hfile
    have hurl : getURL vid tid h =
        .ok ("https://opendata.dwd.de/weather/icon/global/grib/"
          ++ lastTwo tid ++ "/" ++ lowerStr vName ++ "/" ++ f) := by
      simp [getURL, hv, hval, hf]
    exact ⟨⟨_, hurl⟩, f, hf⟩
  · have hval : horizonValid h = false := by
      rw [← Bool.not_eq_true, horizonValid_iff]
      omega
    exact ⟨by simp [getURL, hv, hval], hfile⟩
  · have hval : horizonValid h = false := by
      rw [← Bool.not_eq_true, horizonValid_iff]
      omega
    exact ⟨by simp [getURL, hv, hval], hfile⟩

/-- Witness for `horizon_validation` at `T_2M`, run `2024010100`, horizons
6, 80 and 200. -/
theorem horizon_validation_witness :
    ((∃ u, getURL "T_2M" "2024010100" 6 = .ok u)
      ∧ ∃ f, getDatasetFilename "T_2M" "2024010100" 6 ".grib2.bz2" = some f)
    ∧ (getURL "T_2M" "2024010100" 80 = .error "Invalid forecast hour."
      ∧ ∃ f, getDatasetFilename "T_2M" "2024010100" 80 ".grib2.bz2" = some f)
    ∧ (getURL "T_2M" "2024010100" 200 = .error "Invalid forecast hour."
      ∧ ∃ f, getDatasetFilename "T_2M" "2024010100" 200 ".grib2.bz2" = some f) :=
  ⟨(horizon_validation "T_2M" "T_2M" "single-level" 1 "2024010100" 6 rfl).1
      (by decide),
    (horizon_validation "T_2M" "T_2M" "single-level" 1 "2024010100" 80 rfl).2.1
      (by decide),
    (horizon_validation "T_2M" "T_2M" "single-level" 1 "2024010100" 200 rfl).2.2
      (by decide)⟩

theorem lastTwo_formatYMDH (z : Int) (hh : Nat)
    (hlen : (pad2 hh).data.length = 2) :
    lastTwo (formatYMDH z hh) = pad2 hh := by
  rcases hcv : civilFromDays z with ⟨y, m, d⟩
  simp only [formatYMDH, hcv]
  exact lastTwo_append _ _ hlen

theorem downloadHour_mem (now : Int) :
    downloadHourOf now = 0 ∨ downloadHourOf now = 6
      ∨ downloadHourOf now = 12 ∨ downloadHourOf now = 18 := by
  unfold downloadHourOf runRem runDays
  omega

theorem governingRunInstant_le (now : Int) :
    governingRunInstant now ≤ now - 3 * 3600 := by
  unfold governingRunInstant downloadHourOf runRem runDays
  omega

/-- The claim `C7`: for every instant, `currentPublicationRun`
(`__getDownloadTimeInfo`) returns an identifier whose hour component (its
last two characters) is one of `00`, `06`, `12`, `18`, together with a run
instant at least three hours before the sampled clock value. -/
theorem currentPublicationRun_hour_and_delay (now : Int) :
    (lastTwo (getDownloadTimeInfo now).1 = "00"
      ∨ lastTwo (getDownloadTimeInfo now).1 = "06"
      ∨ lastTwo (getDownloadTimeInfo now).1 = "12"
      ∨ lastTwo (getDownloadTimeInfo now).1 = "18")
    ∧ (getDownloadTimeInfo now).2 ≤ now - 3 * 3600 := by
  constructor
  · have h2 : (pad2 (downloadHourOf now).toNat).data.length = 2 := by
      rcases downloadHour_mem now with h | h | h | h <;> rw [h] <;> decide
    have hlast : lastTwo (getDownloadTimeInfo now).1
        = pad2 (downloadHourOf now).toNat :=
      lastTwo_formatYMDH _ _ h2
    rcases downloadHour_mem now with h | h | h | h
    · exact Or.inl (by rw [hlast, h]; decide)
    · exact Or.inr (Or.inl (by rw [hlast, h]; decide))
    · exact Or.inr (Or.inr (Or.inl (by rw [hlast, h]; decide)))
    · exact Or.inr (Or.inr (Or.inr (by rw [hlast, h]; decide)))
  · exact governingRunInstant_le now

theorem rawForecastDiff_nonneg (now1 now2 lead : Int) (h12 : now1 ≤ now2)
    (hl : 0 ≤ lead) : 0 ≤ rawForecastDiff now1 now2 lead := by
  unfold rawForecastDiff governingRunInstant downloadHourOf runRem runDays
  omega

theorem effectiveHorizon_spec (d : Int) (hd : 0 ≤ d) :
    0 ≤ clampHorizon (quantizeHorizon d)
    ∧ clampHorizon (quantizeHorizon d) ≤ 180
    ∧ clampHorizon (quantizeHorizon d) ≤ d
    ∧ (78 < clampHorizon (quantizeHorizon d) →
        clampHorizon (quantizeHorizon d) % 3 = 0) := by
  unfold clampHorizon quantizeHorizon
  split_ifs <;> omega

theorem downloadAndCompileArgs_error (tid : String) (h : Int)
    (hval : horizonValid h = false) :
    downloadAndCompileArgs tid h = .error "Invalid forecast hour." := by
  have hl : lookupVar "T_2M" = some ("T_2M", "single-level", 1) := rfl
  simp [downloadAndCompileArgs, buildDownloadURLs, ICON_VARIABLES, getURL, hl,
    hval, Except.map]

theorem downloadAndCompileArgs_ok (tid : String) (h : Int)
    (hval : horizonValid h = true) :
    ∃ r, downloadAndCompileArgs tid h = .ok r := by
  have hl : lookupVar "T_2M" = some ("T_2M", "single-level", 1) := rfl
  simp [downloadAndCompileArgs, buildDownloadURLs, ICON_VARIABLES, getURL, hl,
    hval, getDatasetFilename, Except.map]

/-- The claim `C4`: for clock samples `now1 ≤ now2` and a lead of at least 0
hours, the resolution step of `downloadForecastFromNow` returns an effective
horizon in `[0, 180]` that never exceeds the whole-hour difference between
the governing run instant and the hour-floor of now plus the lead
(`rawForecastDiff`), quantization above 78 only rounding down to a multiple
of 3; and whenever the computed difference is negative the download
operation fails with the invalid-horizon error instead of clamping to 0. -/
theorem resolveHorizon_bounds (now1 now2 lead : Int) :
    (now1 ≤ now2 → 0 ≤ lead →
      0 ≤ (resolveHorizonFromWallClock now1 now2 lead).2
      ∧ (resolveHorizonFromWallClock now1 now2 lead).2 ≤ 180
      ∧ (resolveHorizonFromWallClock now1 now2 lead).2
          ≤ rawForecastDiff now1 now2 lead
      ∧ (78 < (resolveHorizonFromWallClock now1 now2 lead).2 →
          (resolveHorizonFromWallClock now1 now2 lead).2 % 3 = 0))
    ∧ (rawForecastDiff now1 now2 lead < 0 →
      downloadForecastFromNow now1 now2 lead
        = .error "Invalid forecast hour.") := by
  constructor
  · intro h12 hl
    exact effectiveHorizon_spec (rawForecastDiff now1 now2 lead)
      (rawForecastDiff_nonneg now1 now2 lead h12 hl)
  · intro hneg
    have hval : horizonValid (effectiveHorizon now1 now2 lead) = false := by
      have heq : effectiveHorizon now1 now2 lead
          = rawForecastDiff now1 now2 lead := by
        unfold effectiveHorizon clampHorizon quantizeHorizon
        split_ifs <;> omega
      rw [← Bool.not_eq_true, horizonValid_iff, heq]
      omega
    exact downloadAndCompileArgs_error _ _ hval

/-- Witness for `resolveHorizon_bounds`: bounds at `now1 = now2 = 0`,
`lead = 0`; loud failure at `lead = -100`, where the raw difference is
negative. -/
theorem resolveHorizon_bounds_witness :
    (0 ≤ (resolveHorizonFromWallClock 0 0 0).2
      ∧ (resolveHorizonFromWallClock 0 0 0).2 ≤ 180
      ∧ (resolveHorizonFromWallClock 0 0 0).2 ≤ rawForecastDiff 0 0 0
      ∧ (78 < (resolveHorizonFromWallClock 0 0 0).2 →
          (resolveHorizonFromWallClock 0 0 0).2 % 3 = 0))
    ∧ downloadForecastFromNow 0 0 (-100) = .error "Invalid forecast hour." :=
  ⟨(resolveHorizon_bounds 0 0 0).1 le_rfl le_rfl,
    (resolveHorizon_bounds 0 0 (-100)).2 (by decide)⟩

/-- The claim `C9`: for clock samples `now1 ≤ now2` and a lead of at least 0
hours, the horizon `downloadForecastFromNow` computes always satisfies the
URL builder's validity rules, so the invalid-horizon branch of `__getURL` is
unreachable and the call returns the download instructions. -/
theorem downloadForecastFromNow_ok (now1 now2 lead : Int)
    (h12 : now1 ≤ now2) (hl : 0 ≤ lead) :
    horizonValid (resolveHorizonFromWallClock now1 now2 lead).2 = true
    ∧ ∃ r, downloadForecastFromNow now1 now2 lead = .ok r := by
  have hspec := effectiveHorizon_spec (rawForecastDiff now1 now2 lead)
    (rawForecastDiff_nonneg now1 now2 lead h12 hl)
  have hval : horizonValid (effectiveHorizon now1 now2 lead) = true :=
    (horizonValid_iff _).mpr ⟨hspec.1, hspec.2.1, hspec.2.2.2⟩
  exact ⟨hval, downloadAndCompileArgs_ok _ _ hval⟩

/-- Witness for `downloadForecastFromNow_ok` at `now1 = now2 = 0`,
`lead = 6`. -/
theorem downloadForecastFromNow_ok_witness :
    horizonValid (resolveHorizonFromWallClock 0 0 6).2 = true
    ∧ ∃ r, downloadForecastFromNow 0 0 6 = .ok r :=
  downloadForecastFromNow_ok 0 0 6 le_rfl (by decide)

theorem endsWith_getLast (s suf : String) (h : strEndsWith s suf = true)
    (c : Char) (hc : suf.data.getLast? = some c) :
    s.data.getLast? = some c := by
  obtain ⟨t, ht⟩ := List.isSuffixOf_iff_suffix.mp h
  rw [← ht, List.getLast?_append, hc]
  rfl

theorem raw_db_disjoint (name : String)
    (hraw : matchesSuffix name rawSuffixes = true)
    (hdb : matchesSuffix name dbSuffixes = true) : False := by
  simp only [matchesSuffix, rawSuffixes, dbSuffixes, List.any_cons,
    List.any_nil, Bool.or_eq_true, Bool.or_false] at hraw hdb
  have e1 : name.data.getLast? = some '2' := by
    rcases hraw with h | h | h <;> exact endsWith_getLast name _ h '2' (by decide)
  have e2 : name.data.getLast? = some 'b' ∨ name.data.getLast? = some 'p'
      ∨ name.data.getLast? = some 'm' := by
    rcases hdb with h | h | h
    · exact Or.inl (endsWith_getLast name _ h 'b' (by decide))
    · exact Or.inr (Or.inl (endsWith_getLast name _ h 'p' (by decide)))
    · exact Or.inr (Or.inr (endsWith_getLast name _ h 'm' (by decide)))
  rcases e2 with h | h | h <;> rw [e1] at h <;> exact absurd h (by decide)

theorem mem_cleanUp_iff (files : List String) (now life : Int)
    (name : String) :
    name ∈ cleanUp files now life ↔
      name ∈ files ∧
        ((matchesSuffix name rawSuffixes = true
          ∧ deleteDecision searchRunHoriz (now - life * 3600) name = true)
        ∨ (matchesSuffix name dbSuffixes = true
          ∧ deleteDecision searchForecastId (now - 3600) name = true)) := by
  simp only [cleanUp, filterDirWithSuffix, List.mem_append, List.mem_filter]
  tauto

/-- The claim `C5`: `cleanUp` computes the cutoff `now - archiveLife` hours
for raw artifacts and the fixed cutoff `now - 1` hour for compiled archives,
and among class-matching files whose embedded run time parses it deletes
exactly those strictly older than their class cutoff (and touches no file of
neither class); concretely, with retention 24 h and now 2024-01-02T00:00Z,
the raw artifact `2023123100_006.grib2` is deleted, the compiled archive
`forecast-2024010123.icondb` is retained and `forecast-2024010122.icondb`
is deleted. -/
theorem cleanUp_retention (files : List String) (now life : Int)
    (name tid : String) (t : Int) :
    (name ∈ files → matchesSuffix name rawSuffixes = true →
      searchRunHoriz name = some tid → timeIdentifierToDatetime tid = some t →
      (name ∈ cleanUp files now life ↔ t < now - life * 3600))
    ∧ (name ∈ files → matchesSuffix name dbSuffixes = true →
      searchForecastId name = some tid → timeIdentifierToDatetime tid = some t →
      (name ∈ cleanUp files now life ↔ t < now - 3600))
    ∧ (matchesSuffix name rawSuffixes = false →
        matchesSuffix name dbSuffixes = false →
        name ∉ cleanUp files now life)
    ∧ cleanUp ["2023123100_006.grib2", "forecast-2024010123.icondb",
          "forecast-2024010122.icondb"] (daysFromCivil 2024 1 2 * 86400) 24
      = ["2023123100_006.grib2", "forecast-2024010122.icondb"] := by
  refine ⟨fun hin hraw hs hp => ?_, fun hin hdb hs hp => ?_,
    fun hraw hdb => ?_, by decide⟩
  · rw [mem_cleanUp_iff]
    constructor
    · rintro ⟨-, ⟨-, hd⟩ | ⟨hdb, -⟩⟩
      · simpa [deleteDecision, hs, hp] using hd
      · exact absurd (raw_db_disjoint name hraw hdb) (not_false)
    · intro hlt
      exact ⟨hin, Or.inl ⟨hraw, by simp [deleteDecision, hs, hp, hlt]⟩⟩
  · rw [mem_cleanUp_iff]
    constructor
    · rintro ⟨-, ⟨hraw, -⟩ | ⟨-, hd⟩⟩
      · exact absurd (raw_db_disjoint name hraw hdb) (not_false)
      · simpa [deleteDecision, hs, hp] using hd
    · intro hlt
      exact ⟨hin, Or.inr ⟨hdb, by simp [deleteDecision, hs, hp, hlt]⟩⟩
  · rw [mem_cleanUp_iff]
    rintro ⟨-, ⟨h, -⟩ | ⟨h, -⟩⟩
    · rw [hraw] at h
      exact absurd h (by decide)
    · rw [hdb] at h
      exact absurd h (by decide)

/-- Witness for `cleanUp_retention`: the raw artifact of the concrete
scenario, evaluated through the first conjunct. -/
theorem cleanUp_retention_witness :
    "2023123100_006.grib2" ∈ cleanUp ["2023123100_006.grib2",
        "forecast-2024010123.icondb", "forecast-2024010122.icondb"]
        (daysFromCivil 2024 1 2 * 86400) 24
      ↔ (1703980800 : Int) < daysFromCivil 2024 1 2 * 86400 - 24 * 3600 :=
  (cleanUp_retention ["2023123100_006.grib2", "forecast-2024010123.icondb",
      "forecast-2024010122.icondb"] (daysFromCivil 2024 1 2 * 86400) 24
      "2023123100_006.grib2" "2023123100" 1703980800).1
    (by decide) (by decide) (by decide) (by decide)

/-- The claim `C6`: the malformed archive name
`forecast-abcdefghij.icondb` is silently skipped by `listDatabase` yet
deleted by `cleanUp`; in general every file matching a class's suffix whose
embedded run identifier cannot be extracted or parsed is deleted by
`cleanUp`. -/
theorem cleanUp_unparseable (files : List String) (now life : Int)
    (name : String) :
    listDatabase "/tmp" ["forecast-abcdefghij.icondb"] = []
    ∧ cleanUp ["forecast-abcdefghij.icondb"] 0 24
      = ["forecast-abcdefghij.icondb"]
    ∧ (name ∈ files → matchesSuffix name dbSuffixes = true →
        (searchForecastId name = none
          ∨ ∃ tid, searchForecastId name = some tid
              ∧ timeIdentifierToDatetime tid = none) →
        name ∈ cleanUp files now life)
    ∧ (name ∈ files → matchesSuffix name rawSuffixes = true →
        (searchRunHoriz name = none
          ∨ ∃ tid, searchRunHoriz name = some tid
              ∧ timeIdentifierToDatetime tid = none) →
        name ∈ cleanUp files now life) := by
  refine ⟨by decide, by decide, fun hin hdb hbad => ?_, fun hin hraw hbad => ?_⟩
  · rw [mem_cleanUp_iff]
    refine ⟨hin, Or.inr ⟨hdb, ?_⟩⟩
    rcases hbad with hs | ⟨tid, hs, hp⟩
    · simp [deleteDecision, hs]
    · simp [deleteDecision, hs, hp]
  · rw [mem_cleanUp_iff]
    refine ⟨hin, Or.inl ⟨hraw, ?_⟩⟩
    rcases hbad with hs | ⟨tid, hs, hp⟩
    · simp [deleteDecision, hs]
    · simp [deleteDecision, hs, hp]

/-- Witness for `cleanUp_unparseable`: the malformed archive name itself,
through the compiled-archive conjunct. -/
theorem cleanUp_unparseable_witness :
    "forecast-abcdefghij.icondb"
      ∈ cleanUp ["forecast-abcdefghij.icondb"] 0 24 :=
  (cleanUp_unparseable ["forecast-abcdefghij.icondb"] 0 24
      "forecast-abcdefghij.icondb").2.2.1
    (by decide) (by decide) (Or.inl (by decide))

/-- The claim `C8`: `listDatabase` on a directory holding exactly the
regular files `forecast-2024010100.icondb` and `notes.txt` returns the one
entry keyed `2024010100` mapping to the archive's path (and its run time);
and every file without the archive extension, without a
`forecast-<10 digits>` substring, or whose identifier does not parse,
contributes no entry (the loop step leaves the accumulator unchanged, no
error is possible as the step is total). -/
theorem listArchives_spec (tempDir : String)
    (ret : List (String × String × Int)) (name : String) :
    listDatabase "/data" ["forecast-2024010100.icondb", "notes.txt"]
      = [("2024010100", "/data/forecast-2024010100.icondb", 1704067200)]
    ∧ (strEndsWith (pathJoin tempDir name) ".icondb" = false →
        listStep tempDir ret name = ret)
    ∧ (searchForecastId name = none → listStep tempDir ret name = ret)
    ∧ (∀ tid, searchForecastId name = some tid →
        timeIdentifierToDatetime tid = none → listStep tempDir ret name = ret) := by
  refine ⟨by decide, fun h => ?_, fun h => ?_, fun tid h hp => ?_⟩
  · simp [listStep, h]
  · simp [listStep, h]
  · simp [listStep, h, hp]

/-- Witness for `listArchives_spec`: the unrelated file `notes.txt` leaves
the accumulator unchanged. -/
theorem listArchives_spec_witness :
    listStep "/data" [] "notes.txt" = [] :=
  (listArchives_spec "/data" [] "notes.txt").2.1 (by decide)

/-- The claim `C10`: the compiled-archive pass of `cleanUp` also covers
files ending in `.icondb.temp` and `.icondb.checksum`: every such file
whose embedded run time is strictly more than 1 hour before now, or whose
identifier cannot be extracted or parsed, is deleted. -/
theorem cleanUp_temp_checksum (files : List String) (now life : Int)
    (name : String)
    (hsuf : strEndsWith name ".icondb.temp" = true
      ∨ strEndsWith name ".icondb.checksum" = true)
    (hin : name ∈ files)
    (hbad : searchForecastId name = none
      ∨ (∃ tid, searchForecastId name = some tid
          ∧ timeIdentifierToDatetime tid = none)
      ∨ (∃ tid t, searchForecastId name = some tid
          ∧ timeIdentifierToDatetime tid = some t ∧ t < now - 3600)) :
    name ∈ cleanUp files now life := by
  rw [mem_cleanUp_iff]
  refine ⟨hin, Or.inr ⟨?_, ?_⟩⟩
  · simp only [matchesSuffix, dbSuffixes, List.any_cons, List.any_nil,
      Bool.or_eq_true, Bool.or_false]
    tauto
  · rcases hbad with hs | ⟨tid, hs, hp⟩ | ⟨tid, t, hs, hp, hlt⟩
    · simp [deleteDecision, hs]
    · simp [deleteDecision, hs, hp]
    · simp [deleteDecision, hs, hp, hlt]

/-- Witness for `cleanUp_temp_checksum`: a stale `.icondb.temp` file one day
before a now of 2024-01-02T00:00Z. -/
theorem cleanUp_temp_checksum_witness :
    "forecast-2024010100.icondb.temp"
      ∈ cleanUp ["forecast-2024010100.icondb.temp"]
          (daysFromCivil 2024 1 2 * 86400) 24 :=
  cleanUp_temp_checksum ["forecast-2024010100.icondb.temp"]
    (daysFromCivil 2024 1 2 * 86400) 24 "forecast-2024010100.icondb.temp"
    (Or.inl (by decide)) (by decide)
    (Or.inr (Or.inr ⟨"2024010100", 1704067200, by decide, by decide, by decide⟩))

end NaGribtools
